import Mathlib

/-!
Verification of the placer-ai-assignment POI analytics dashboard.

The development shallowly embeds the frontend code (frontend/src/services/api.ts,
frontend/src/components/{Analytics,Dashboard,POIFilters,POITable}.tsx and the type
declarations in frontend/src/types/poi.ts) and, where a property concerns the
backend Query Engine whose implementation is not part of the frontend sources,
models that engine from the specification (such definitions are marked
"Modelled from the spec").  JavaScript numbers are represented by `Int`/`Nat`
for integral quantities and by `Rat` for monetary/fractional quantities; JS
`undefined`/`null` on optional fields are both represented by `Option.none`.
-/

/-- Venue record, from the `POI` interface in frontend/src/types/poi.ts. -/
structure POI where
  entity_id : String
  name : String
  chain_name : String
  sub_category : String
  dma : Option Int
  city : String
  state_name : String
  foot_traffic : Nat
  is_open : Bool
  sales : Rat
  avg_dwell_time_min : Rat
  area_sqft : Rat
  ft_per_sqft : Rat
  street_address : String
  postal_code : String
  date_opened : Option String
  date_closed : Option String
deriving DecidableEq, Repr

/-- Filter specification, from the `Filters` interface in frontend/src/types/poi.ts.
All seven keys are optional; `none` stands for the key being absent (or set to
`undefined`/`null`). -/
structure Filters where
  chain_name : Option String
  dma : Option Int
  sub_category : Option String
  city : Option String
  state_code : Option String
  is_open : Option Bool
  search : Option String
deriving DecidableEq, Repr

/-- The filter specification with no key present. -/
def emptyFilters : Filters :=
  { chain_name := none, dma := none, sub_category := none, city := none
  , state_code := none, is_open := none, search := none }

/-- Query parameters contributed by one optional string-valued filter key.
Mirrors the guard in api.ts lines 21-25: a value is appended unless it is
`undefined`, `null` or the empty string. -/
def strParam (k : String) : Option String → List (String × String)
  | none => []
  | some v => if v = "" then [] else [(k, v)]

/-- Query parameters contributed by the optional numeric `dma` key: a number is
never `''`, so any present value is appended with its decimal rendering. -/
def intParam (k : String) : Option Int → List (String × String)
  | none => []
  | some n => [(k, toString n)]

/-- Query parameters contributed by the optional boolean `is_open` key: both
`true` and `false` are appended (a boolean is never `''`), rendered the way JS
`toString` renders booleans. -/
def boolParam (k : String) : Option Bool → List (String × String)
  | none => []
  | some b => [(k, if b then "true" else "false")]

/-- The query-parameter list built from a filter specification by
`poiApi.getPOIs` and `poiApi.getSummaryStats` (api.ts lines 21-25 and 34-38):
each present, non-empty key is appended once, in the field order of the
`Filters` interface. -/
def serializeFilters (f : Filters) : List (String × String) :=
  strParam "chain_name" f.chain_name ++ intParam "dma" f.dma ++
  strParam "sub_category" f.sub_category ++ strParam "city" f.city ++
  strParam "state_code" f.state_code ++ boolParam "is_open" f.is_open ++
  strParam "search" f.search

/-- Rendering of a parameter list as a query string, the way
`URLSearchParams.toString()` joins `k=v` pairs with `&` (percent-encoding of
values is not modelled; it is injective and irrelevant to the claims). -/
def joinParams : List (String × String) → String
  | [] => ""
  | [(k, v)] => k ++ "=" ++ v
  | (k, v) :: kv :: rest => k ++ "=" ++ v ++ "&" ++ joinParams (kv :: rest)

/-- The query string built by `poiApi.getPOIs(page, limit, filters)`
(api.ts lines 12-27): `page` and `limit` first, then the filter parameters. -/
def getPOIsQuery (page limit : Int) (f : Filters) : String :=
  joinParams (("page", toString page) :: ("limit", toString limit) :: serializeFilters f)

/-- The query string built by `poiApi.getSummaryStats(filters)`
(api.ts lines 31-40): only the filter parameters. -/
def getSummaryStatsQuery (f : Filters) : String :=
  joinParams (serializeFilters f)

/-- The request URLs issued by `loadAnalyticsData` in Analytics.tsx lines 62-86.
The component receives a `filters` prop but the fetches at lines 66-69 attach
no query parameters at all, so the argument is unused. -/
def loadAnalyticsRequests (_filters : Filters) : List String :=
  ["/api/v1/pois/analytics/chain-performance", "/api/v1/pois/analytics/dma-distribution"]

/-- Per-chain analytics row, from the `ChainPerformance` interface in
Analytics.tsx lines 32-40. -/
structure ChainPerformance where
  chain_name : String
  total_venues : Nat
  total_foot_traffic : Nat
  total_sales : Rat
  avg_sales_per_visitor : Rat
  open_venues : Nat
  closed_venues : Nat
deriving DecidableEq, Repr

/-- Data series of the "Chain Performance - Foot Traffic vs Sales" bar chart:
`chainData.slice(0, 10)` (Analytics.tsx line 130). -/
def chainTrafficChartData (chainData : List ChainPerformance) : List ChainPerformance :=
  chainData.take 10

/-- Data series of the "Average Sales per Visitor by Chain" bar chart:
`chainData.slice(0, 8)` (Analytics.tsx line 199) — the same array, not
re-sorted. -/
def salesPerVisitorChartData (chainData : List ChainPerformance) : List ChainPerformance :=
  chainData.take 8

/-- Result of `handleSearchChange` in POIFilters.tsx lines 54-66: the state
value is always updated; when the input has at least 2 characters an
autocomplete request for it is issued, otherwise the suggestion list is set to
empty and no request is made. -/
structure SearchChangeResult where
  searchValue : String
  autocompleteRequest : Option String
  suggestionsCleared : Bool
deriving DecidableEq, Repr

/-- Shallow embedding of `handleSearchChange` (POIFilters.tsx lines 54-66). -/
def handleSearchChange (value : String) : SearchChangeResult :=
  if 2 ≤ value.length then
    { searchValue := value, autocompleteRequest := some value, suggestionsCleared := false }
  else
    { searchValue := value, autocompleteRequest := none, suggestionsCleared := true }

/-- The Dashboard component state relevant to data loading
(Dashboard.tsx lines 58-60). -/
structure DashboardState where
  filters : Filters
  page : Int
  rowsPerPage : Int
deriving DecidableEq, Repr

/-- `handleFiltersChange` (Dashboard.tsx lines 119-122): store the new filters
and reset the page to 1. -/
def handleFiltersChange (newFilters : Filters) (s : DashboardState) : DashboardState :=
  { s with filters := newFilters, page := 1 }

/-- `handlePageChange` (Dashboard.tsx lines 124-126). -/
def handlePageChange (newPage : Int) (s : DashboardState) : DashboardState :=
  { s with page := newPage }

/-- `handleRowsPerPageChange` (Dashboard.tsx lines 128-131): store the new page
size and reset the page to 1. -/
def handleRowsPerPageChange (newRowsPerPage : Int) (s : DashboardState) : DashboardState :=
  { s with rowsPerPage := newRowsPerPage, page := 1 }

/-- `handleChangeRowsPerPage` in POITable.tsx lines 54-57: it invokes the
Dashboard's rows-per-page handler and then its page handler with 1. -/
def tableChangeRowsPerPage (value : Int) (s : DashboardState) : DashboardState :=
  handlePageChange 1 (handleRowsPerPageChange value s)

/-- The request issued by `loadPOIData` (Dashboard.tsx lines 82-94):
`poiApi.getPOIs(page, rowsPerPage, filters)` on the current state. -/
def loadPOIDataRequest (s : DashboardState) : String :=
  getPOIsQuery s.page s.rowsPerPage s.filters

/-- Zero-based MUI page index to 1-based API page, from `handleChangePage`
(POITable.tsx lines 50-52): `onPageChange(newPage + 1)`. -/
def apiPageOfMuiPage (newPage : Int) : Int := newPage + 1

/-- One-based API page to zero-based MUI index, from the `TablePagination`
prop `page=(data.page - 1)` (POITable.tsx line 202). -/
def muiPageOfApiPage (page : Int) : Int := page - 1

/-- What the DMA table cell displays: either the literal N/A text or the
number itself. -/
inductive DMACellContent where
  | na : DMACellContent
  | value (n : Int) : DMACellContent
deriving DecidableEq, Repr

/-- The DMA cell `poi.dma || 'N/A'` (POITable.tsx lines 149-151): JS `||`
takes the right operand exactly when the left is falsy, and the falsy values
of type number-or-null are `null` and `0`. -/
def renderDMACell (dma : Option Int) : DMACellContent :=
  match dma with
  | none => DMACellContent.na
  | some n => if n = 0 then DMACellContent.na else DMACellContent.value n

/-- Update of the `is_open` key through `handleFilterChange`
(POIFilters.tsx lines 44-52): the key is deleted when the value is
`''`/`null`/`undefined` and stored otherwise; a boolean value (also `false`)
is none of the three, so it is always stored. -/
def setIsOpenFilter (value : Option Bool) (f : Filters) : Filters :=
  match value with
  | none => { f with is_open := none }
  | some b => { f with is_open := some b }

/-- The Status select's onChange handler (POIFilters.tsx lines 243-250):
`''` clears the key via `handleFilterChange('is_open', undefined)`; any other
value stores the boolean `value === 'true'`. -/
def statusSelectChange (v : String) (f : Filters) : Filters :=
  if v = "" then setIsOpenFilter none f
  else setIsOpenFilter (some (v == "true")) f

/-- Case-folded character sequence of a string, for case-insensitive matching. -/
def lowerChars (s : String) : List Char :=
  s.toList.map Char.toLower

/-- Whether the first character sequence starts the second. -/
def isPrefixChars : List Char → List Char → Bool
  | [], _ => true
  | _ :: _, [] => false
  | a :: as, b :: bs => a == b && isPrefixChars as bs

/-- Whether the first character sequence occurs contiguously in the second. -/
def isSubstrChars (n : List Char) : List Char → Bool
  | [] => n.isEmpty
  | b :: bs => isPrefixChars n (b :: bs) || isSubstrChars n bs

/-- Case-insensitive substring test: the needle occurs in the haystack. -/
def containsCI (hay needle : String) : Bool :=
  isSubstrChars (lowerChars needle) (lowerChars hay)

/-- Modelled from the spec: the search predicate of Query Engine filter
matching (spec section 4.1) — the backend implementation is not under src/.
A row matches when the query is a case-insensitive substring of any of name,
chain name, city or street address. -/
def searchMatches (q : String) (p : POI) : Bool :=
  containsCI p.name q || containsCI p.chain_name q ||
  containsCI p.city q || containsCI p.street_address q

/-- Modelled from the spec: an optional exact string predicate (spec section
4.1) — absent and empty values impose no constraint, otherwise the match is
exact and case-sensitive. -/
def strPred (o : Option String) (field : String) : Bool :=
  match o with
  | none => true
  | some v => if v = "" then true else field == v

/-- Modelled from the spec: Query Engine filter matching (spec section 4.1) —
the backend implementation is not under src/.  A conjunction of the present
predicates: exact matches on chain name, DMA, sub-category, city, state (the
`state_code` key tests the state field the dataset exposes, `state_name`) and
open flag, and the multi-field search predicate. -/
def matchesFilter (f : Filters) (p : POI) : Bool :=
  strPred f.chain_name p.chain_name &&
  (match f.dma with | none => true | some n => p.dma == some n) &&
  strPred f.sub_category p.sub_category &&
  strPred f.city p.city &&
  strPred f.state_code p.state_name &&
  (match f.is_open with | none => true | some b => p.is_open == b) &&
  (match f.search with | none => true | some q => if q = "" then true else searchMatches q p)

/-- Modelled from the spec: Query Engine filtering (spec sections 2 and 4.1) —
the ordered subsequence of rows satisfying all present predicates. -/
def filterRows (f : Filters) (rows : List POI) : List POI :=
  rows.filter (matchesFilter f)

/-- Summary statistics record, from the `SummaryStats` interface in
frontend/src/types/poi.ts. -/
structure SummaryStats where
  total_venues : Nat
  total_foot_traffic : Nat
  total_sales : Rat
  avg_dwell_time : Rat
  open_venues : Nat
  closed_venues : Nat
  unique_chains : Nat
  unique_dmas : Nat
deriving DecidableEq, Repr

/-- Modelled from the spec: summary statistics over an already-filtered subset
(spec section 4.2) — the backend implementation is not under src/. -/
def summaryOf (rows : List POI) : SummaryStats :=
  { total_venues := rows.length
  , total_foot_traffic := (rows.map POI.foot_traffic).sum
  , total_sales := (rows.map POI.sales).sum
  , avg_dwell_time :=
      if rows.length = 0 then 0 else (rows.map POI.avg_dwell_time_min).sum / rows.length
  , open_venues := rows.countP (fun p => p.is_open)
  , closed_venues := rows.countP (fun p => !p.is_open)
  , unique_chains := (rows.map POI.chain_name).dedup.length
  , unique_dmas := (rows.filterMap POI.dma).dedup.length }

/-- Modelled from the spec: the `summary(filter)` operation (spec section 6)
computes the statistics of section 4.2 over the rows matching the filter. -/
def summary (f : Filters) (rows : List POI) : SummaryStats :=
  summaryOf (filterRows f rows)

/-- Modelled from the spec: the default chain-performance ranking of section
4.3 — descending total foot traffic, ties broken by chain name ascending. -/
def defaultChainOrder (a b : ChainPerformance) : Prop :=
  b.total_foot_traffic < a.total_foot_traffic ∨
    (a.total_foot_traffic = b.total_foot_traffic ∧ a.chain_name ≤ b.chain_name)

instance : DecidableRel defaultChainOrder := fun a b =>
  inferInstanceAs (Decidable (b.total_foot_traffic < a.total_foot_traffic ∨
    (a.total_foot_traffic = b.total_foot_traffic ∧ a.chain_name ≤ b.chain_name)))

/-- Stated from the claim's words, for comparison with the source: the
sales-per-visitor ranking — descending by average sales per visitor. -/
def specSalesPerVisitorDesc (a b : ChainPerformance) : Prop :=
  b.avg_sales_per_visitor ≤ a.avg_sales_per_visitor

instance : DecidableRel specSalesPerVisitorDesc := fun a b =>
  inferInstanceAs (Decidable (b.avg_sales_per_visitor ≤ a.avg_sales_per_visitor))

/-- Stated from the claim's words, for comparison with the source: re-sorting
the chain rows client-side by `avg_sales_per_visitor` descending. -/
def specSalesPerVisitorSort (d : List ChainPerformance) : List ChainPerformance :=
  d.insertionSort specSalesPerVisitorDesc

/-- A chain row with the given name, foot traffic and average sales per
visitor, used for concrete evaluations. -/
def mkChainRow (n : String) (ft : Nat) (avg : Rat) : ChainPerformance :=
  { chain_name := n, total_venues := 1, total_foot_traffic := ft, total_sales := 0
  , avg_sales_per_visitor := avg, open_venues := 1, closed_venues := 0 }

/-- A chain-performance response in the engine's default order (foot traffic
descending) in which the chain with the best sales-per-visitor ratio is the
one with the least foot traffic. -/
def exampleChainData : List ChainPerformance :=
  [ mkChainRow "c1" 900 1, mkChainRow "c2" 800 1, mkChainRow "c3" 700 1
  , mkChainRow "c4" 600 1, mkChainRow "c5" 500 1, mkChainRow "c6" 400 1
  , mkChainRow "c7" 300 1, mkChainRow "c8" 200 1, mkChainRow "c9" 100 10 ]

theorem countP_open_add_closed (rows : List POI) :
    rows.countP (fun p => p.is_open) + rows.countP (fun p => !p.is_open) = rows.length := by
  induction rows with
  | nil => rfl
  | cons x xs ih => cases hx : x.is_open <;> simp [List.countP_cons, hx] <;> omega

theorem mem_strParam {k k' v : String} {o : Option String} :
    (k', v) ∈ strParam k o ↔ k' = k ∧ o = some v ∧ v ≠ "" := by
  cases o with
  | none => simp [strParam]
  | some s =>
    constructor
    · intro h
      simp only [strParam] at h
      split at h
      · cases h
      · rename_i hs
        simp only [List.mem_singleton, Prod.mk.injEq] at h
        obtain ⟨rfl, rfl⟩ := h
        exact ⟨rfl, rfl, hs⟩
    · rintro ⟨rfl, hsv, hv⟩
      injection hsv with hsv
      subst hsv
      simp only [strParam, if_neg hv, List.mem_singleton]

theorem mem_intParam {k k' v : String} {o : Option Int} :
    (k', v) ∈ intParam k o ↔ k' = k ∧ ∃ n, o = some n ∧ v = toString n := by
  cases o with
  | none => simp [intParam]
  | some n =>
    simp only [intParam, List.mem_singleton, Prod.mk.injEq, Option.some.injEq]
    constructor
    · rintro ⟨rfl, rfl⟩
      exact ⟨rfl, n, rfl, rfl⟩
    · rintro ⟨rfl, m, rfl, rfl⟩
      exact ⟨rfl, rfl⟩

theorem mem_boolParam {k k' v : String} {o : Option Bool} :
    (k', v) ∈ boolParam k o ↔ k' = k ∧ ∃ b, o = some b ∧ v = (if b then "true" else "false") := by
  cases o with
  | none => simp [boolParam]
  | some b =>
    simp only [boolParam, List.mem_singleton, Prod.mk.injEq, Option.some.injEq]
    constructor
    · rintro ⟨rfl, rfl⟩
      exact ⟨rfl, b, rfl, rfl⟩
    · rintro ⟨rfl, c, rfl, rfl⟩
      exact ⟨rfl, rfl⟩

theorem keys_strParam (k : String) (o : Option String) :
    List.Sublist ((strParam k o).map Prod.fst) [k] := by
  cases o with
  | none => simp [strParam]
  | some s =>
    simp only [strParam]
    split
    · simp
    · simp

theorem keys_intParam (k : String) (o : Option Int) :
    List.Sublist ((intParam k o).map Prod.fst) [k] := by
  cases o <;> simp [intParam]

theorem keys_boolParam (k : String) (o : Option Bool) :
    List.Sublist ((boolParam k o).map Prod.fst) [k] := by
  cases o <;> simp [boolParam]

theorem serialize_keys_sublist (f : Filters) :
    List.Sublist ((serializeFilters f).map Prod.fst)
      ["chain_name", "dma", "sub_category", "city", "state_code", "is_open", "search"] := by
  show List.Sublist ((serializeFilters f).map Prod.fst)
      ((((((["chain_name"] ++ ["dma"]) ++ ["sub_category"]) ++ ["city"]) ++ ["state_code"]) ++
        ["is_open"]) ++ ["search"])
  simp only [serializeFilters, List.map_append]
  exact (((((((keys_strParam _ _).append (keys_intParam _ _)).append
    (keys_strParam _ _)).append (keys_strParam _ _)).append
    (keys_strParam _ _)).append (keys_boolParam _ _)).append (keys_strParam _ _))

theorem mem_serialize_chain (f : Filters) (v : String) :
    ("chain_name", v) ∈ serializeFilters f ↔ f.chain_name = some v ∧ v ≠ "" := by
  simp [serializeFilters, List.mem_append, mem_strParam, mem_intParam, mem_boolParam]

theorem mem_serialize_dma (f : Filters) (v : String) :
    ("dma", v) ∈ serializeFilters f ↔ ∃ n, f.dma = some n ∧ v = toString n := by
  simp [serializeFilters, List.mem_append, mem_strParam, mem_intParam, mem_boolParam]

theorem mem_serialize_subCategory (f : Filters) (v : String) :
    ("sub_category", v) ∈ serializeFilters f ↔ f.sub_category = some v ∧ v ≠ "" := by
  simp [serializeFilters, List.mem_append, mem_strParam, mem_intParam, mem_boolParam]

theorem mem_serialize_city (f : Filters) (v : String) :
    ("city", v) ∈ serializeFilters f ↔ f.city = some v ∧ v ≠ "" := by
  simp [serializeFilters, List.mem_append, mem_strParam, mem_intParam, mem_boolParam]

theorem mem_serialize_stateCode (f : Filters) (v : String) :
    ("state_code", v) ∈ serializeFilters f ↔ f.state_code = some v ∧ v ≠ "" := by
  simp [serializeFilters, List.mem_append, mem_strParam, mem_intParam, mem_boolParam]

theorem mem_serialize_isOpen (f : Filters) (v : String) :
    ("is_open", v) ∈ serializeFilters f ↔
      ∃ b, f.is_open = some b ∧ v = (if b then "true" else "false") := by
  simp [serializeFilters, List.mem_append, mem_strParam, mem_intParam, mem_boolParam]

theorem mem_serialize_searchKey (f : Filters) (v : String) :
    ("search", v) ∈ serializeFilters f ↔ f.search = some v ∧ v ≠ "" := by
  simp [serializeFilters, List.mem_append, mem_strParam, mem_intParam, mem_boolParam]

/-- C1: the analytics view does NOT supply the active filter to the
chain-performance and DMA-distribution operations — `loadAnalyticsData`
issues the unparameterised requests whatever the filters prop holds, so an
active chain filter produces exactly the requests of the empty filter.  This
exhibits the divergence from the claim at a concrete failing input. -/
theorem analytics_requests_ignore_filters :
    loadAnalyticsRequests { emptyFilters with chain_name := some "Walmart" } =
      loadAnalyticsRequests emptyFilters := rfl

/-- C3: in the query-parameter list built for `getPOIs`/`getSummaryStats`, a
key appears at most once (the key list has no duplicates); each of the seven
keys is present with value v exactly when the filter holds that key with a
non-absent, non-empty value rendering to v; and the empty filter
specification contributes no parameters at all. -/
theorem serializeFilters_omits_absent_keys (f : Filters) :
    ((serializeFilters f).map Prod.fst).Nodup ∧
    (∀ v, ("chain_name", v) ∈ serializeFilters f ↔ f.chain_name = some v ∧ v ≠ "") ∧
    (∀ v, ("dma", v) ∈ serializeFilters f ↔ ∃ n, f.dma = some n ∧ v = toString n) ∧
    (∀ v, ("sub_category", v) ∈ serializeFilters f ↔ f.sub_category = some v ∧ v ≠ "") ∧
    (∀ v, ("city", v) ∈ serializeFilters f ↔ f.city = some v ∧ v ≠ "") ∧
    (∀ v, ("state_code", v) ∈ serializeFilters f ↔ f.state_code = some v ∧ v ≠ "") ∧
    (∀ v, ("is_open", v) ∈ serializeFilters f ↔
      ∃ b, f.is_open = some b ∧ v = (if b then "true" else "false")) ∧
    (∀ v, ("search", v) ∈ serializeFilters f ↔ f.search = some v ∧ v ≠ "") ∧
    serializeFilters emptyFilters = [] := by
  refine ⟨List.Nodup.sublist (serialize_keys_sublist f) (by decide),
    mem_serialize_chain f, mem_serialize_dma f, mem_serialize_subCategory f,
    mem_serialize_city f, mem_serialize_stateCode f, mem_serialize_isOpen f,
    mem_serialize_searchKey f, rfl⟩

/-- C4: for every filter specification and row collection, the open and
closed venue counts of the summary statistics add up to the total venue
count — every counted venue is classified by its boolean open flag as exactly
one of the two. -/
theorem summary_open_add_closed_eq_total (f : Filters) (rows : List POI) :
    (summary f rows).open_venues + (summary f rows).closed_venues =
      (summary f rows).total_venues := by
  simp only [summary, summaryOf]
  exact countP_open_add_closed _

/-- C5: the 1-based/0-based page conversions of the table round-trip — the
page-change handler sends n+1 for zero-based index n, the renderer shows
page p at zero-based p-1, and both compositions are the identity. -/
theorem pagination_conversion_roundtrip (p n : Int) :
    apiPageOfMuiPage (muiPageOfApiPage p) = p ∧
    muiPageOfApiPage (apiPageOfMuiPage n) = n := by
  unfold apiPageOfMuiPage muiPageOfApiPage
  omega

/-- C6: `handleSearchChange` issues an autocomplete request for the input
exactly when the input is at least 2 characters long; any shorter input
issues no request and clears the suggestion list. -/
theorem autocomplete_request_iff_minLength (v : String) :
    ((handleSearchChange v).autocompleteRequest = some v ↔ 2 ≤ v.length) ∧
    (v.length < 2 →
      (handleSearchChange v).autocompleteRequest = none ∧
      (handleSearchChange v).suggestionsCleared = true) := by
  by_cases h : 2 ≤ v.length
  · simp [handleSearchChange, h]
  · simp [handleSearchChange, h]

theorem autocomplete_request_iff_minLength_witness :
    (handleSearchChange "ab").autocompleteRequest = some "ab" ∧
    (handleSearchChange "a").autocompleteRequest = none ∧
    (handleSearchChange "a").suggestionsCleared = true :=
  ⟨(autocomplete_request_iff_minLength "ab").1.mpr (by decide),
    ((autocomplete_request_iff_minLength "a").2 (by decide)).1,
    ((autocomplete_request_iff_minLength "a").2 (by decide)).2⟩

/-- C7: the query strings built by `getPOIs` and `getSummaryStats` are pure
functions of their arguments — identical page, limit and filters always
produce identical query strings, hence identical requests. -/
theorem requests_deterministic (p₁ l₁ p₂ l₂ : Int) (f₁ f₂ : Filters)
    (hp : p₁ = p₂) (hl : l₁ = l₂) (hf : f₁ = f₂) :
    getPOIsQuery p₁ l₁ f₁ = getPOIsQuery p₂ l₂ f₂ ∧
    getSummaryStatsQuery f₁ = getSummaryStatsQuery f₂ := by
  subst hp
  subst hl
  subst hf
  exact ⟨rfl, rfl⟩

theorem requests_deterministic_witness :
    getPOIsQuery 1 20 emptyFilters = getPOIsQuery 1 20 emptyFilters ∧
    getSummaryStatsQuery emptyFilters = getSummaryStatsQuery emptyFilters :=
  requests_deterministic 1 20 1 20 emptyFilters emptyFilters rfl rfl rfl

/-- C8: a filter change or a page-size change always resets the stored page
to 1 — via the Dashboard handlers directly and via the table's rows-per-page
handler — so the next `getPOIs` request after either change is issued with
page 1. -/
theorem page_resets_on_filter_or_pagesize_change
    (s : DashboardState) (nf : Filters) (n : Int) :
    (handleFiltersChange nf s).page = 1 ∧
    (handleRowsPerPageChange n s).page = 1 ∧
    (tableChangeRowsPerPage n s).page = 1 ∧
    loadPOIDataRequest (handleFiltersChange nf s) = getPOIsQuery 1 s.rowsPerPage nf ∧
    loadPOIDataRequest (tableChangeRowsPerPage n s) = getPOIsQuery 1 n s.filters :=
  ⟨rfl, rfl, rfl, rfl, rfl⟩

/-- C9: selecting the Closed Only status stores `is_open = false` and the
serializer transmits the pair is_open=false, while clearing the status stores
`none`, whose serialization carries no is_open key — so the two resulting
requests always differ. -/
theorem isOpen_false_transmitted (f : Filters) :
    (statusSelectChange "false" f).is_open = some false ∧
    ("is_open", "false") ∈ serializeFilters (statusSelectChange "false" f) ∧
    (statusSelectChange "" f).is_open = none ∧
    serializeFilters (statusSelectChange "false" f) ≠
      serializeFilters (statusSelectChange "" f) := by
  have h1 : (statusSelectChange "false" f).is_open = some false := by
    simp [statusSelectChange, setIsOpenFilter]
  have h3 : (statusSelectChange "" f).is_open = none := by
    simp [statusSelectChange, setIsOpenFilter]
  have h2 : ("is_open", "false") ∈ serializeFilters (statusSelectChange "false" f) :=
    (mem_serialize_isOpen _ _).mpr ⟨false, h1, rfl⟩
  refine ⟨h1, h2, h3, fun he => ?_⟩
  obtain ⟨b, hb, -⟩ := (mem_serialize_isOpen (statusSelectChange "" f) "false").mp (he ▸ h2)
  rw [h3] at hb
  cases hb

/-- C10: the DMA table cell shows the N/A text exactly when the venue's dma
is null or the number 0, shows the number for every other value, and a
zero-DMA venue is displayed identically to a venue with no DMA. -/
theorem dma_cell_na_iff_null_or_zero (d : Option Int) :
    (renderDMACell d = DMACellContent.na ↔ d = none ∨ d = some 0) ∧
    (∀ n : Int, n ≠ 0 → renderDMACell (some n) = DMACellContent.value n) ∧
    renderDMACell (some 0) = renderDMACell none := by
  refine ⟨?_, fun n hn => by simp [renderDMACell, hn], rfl⟩
  cases d with
  | none => simp [renderDMACell]
  | some n =>
    by_cases hn : n = 0
    · subst hn
      simp [renderDMACell]
    · simp [renderDMACell, hn]

theorem dma_cell_na_iff_null_or_zero_witness :
    renderDMACell (some 5) = DMACellContent.value 5 ∧
    renderDMACell (some 0) = renderDMACell none :=
  ⟨(dma_cell_na_iff_null_or_zero (some 5)).2.1 5 (by decide),
    (dma_cell_na_iff_null_or_zero none).2.2⟩

/-- C2 counterexample: on a chain-performance response delivered in the
engine's default order in which the chain with the best sales-per-visitor
ratio has the least foot traffic, the sales-per-visitor chart's data — the
plain first 8 rows — is not the top 8 under a sales-per-visitor ranking: the
best-ratio chain c9 is missing from the chart. -/
theorem salesChart_not_avgSorted_cex :
    salesPerVisitorChartData exampleChainData ≠
      (specSalesPerVisitorSort exampleChainData).take 8 := by
  decide

/-- C2 (amended): both charts consume prefixes of the same sequence — the
sales-per-visitor chart's 8 rows are the first 8 of the traffic/sales
chart's 10 — and when the response is in the engine's default ranking each
chart's rows are a top-N of that ranking: every displayed row ranks no worse
than every dropped row.  No re-sort by sales-per-visitor happens. -/
theorem chartData_prefix_topN (d : List ChainPerformance)
    (h : List.Sorted defaultChainOrder d) :
    salesPerVisitorChartData d = (chainTrafficChartData d).take 8 ∧
    (∀ x ∈ chainTrafficChartData d, ∀ y ∈ d.drop 10, defaultChainOrder x y) ∧
    (∀ x ∈ salesPerVisitorChartData d, ∀ y ∈ d.drop 8, defaultChainOrder x y) := by
  refine ⟨?_, ?_, ?_⟩
  · simp [salesPerVisitorChartData, chainTrafficChartData, List.take_take]
  · intro x hx y hy
    exact List.Sorted.rel_of_mem_take_of_mem_drop h hx hy
  · intro x hx y hy
    exact List.Sorted.rel_of_mem_take_of_mem_drop h hx hy

theorem chartData_prefix_topN_witness :
    List.Sorted defaultChainOrder [mkChainRow "a" 5 1, mkChainRow "b" 3 1] ∧
    salesPerVisitorChartData [mkChainRow "a" 5 1, mkChainRow "b" 3 1] =
      (chainTrafficChartData [mkChainRow "a" 5 1, mkChainRow "b" 3 1]).take 8 :=
  ⟨by decide, (chartData_prefix_topN _ (by decide)).1⟩
